import Mathlib

/-!
Verification of the process-bootstrap subsystem of lite-idp
(`cmd/root.go`): configuration resolution across layered sources,
the strict-transport-security middleware, handler composition, and the
serve / graceful-shutdown / exit-code flow.

The Go file delegates configuration lookup to the spf13/viper and
spf13/cobra libraries; the definitions below embed the exact behaviour of
the library calls the file makes (`BindPFlags`, `AutomaticEnv`,
`SetEnvKeyReplacer`, `ReadInConfig`, `SetConfigFile`) together with the
file's own functions (`initConfig`, `hsts`, `hstsHandler.ServeHTTP`,
`RootCmd.RunE`, `Execute`).
-/

/-! ## Configuration resolution (initConfig, root.go 107-126) -/

/-- A command-line flag bound into the resolver via `viper.BindPFlags`
(root.go 118).  `value` is the flag's current value (its declared default
unless the caller supplied the flag), `defValue` its declared default, and
`changed` records whether the caller explicitly supplied it
(pflag's `Flag.Changed`). -/
structure FlagBinding where
  value : String
  defValue : String
  changed : Bool
deriving DecidableEq, Repr

/-- Environment-variable name consulted for a setting key: viper upper-cases
the key (`AutomaticEnv`, no prefix configured) and then applies the replacer
installed at root.go 117, `strings.NewReplacer("-", "_")`, which for these
single-character patterns is a character-wise substitution. -/
def envVarName (key : String) : String :=
  String.mk ((key.data.map Char.toUpper).map (fun c => if c = '-' then '_' else c))

/-- State of the resolver after `initConfig` ran: the bound flags, the process
environment, the parsed configuration-file contents, and explicit defaults
(`viper.SetDefault`, which this repository never calls). -/
structure ViperState where
  pflags : String → Option FlagBinding
  envVars : String → Option String
  configMap : String → Option String
  defaults : String → Option String

/-- Effective-value lookup for one key, embedding the lookup order of the
configuration library used by root.go (viper's `find`), restricted to the
sources the repository wires up.  A bound flag wins only when the caller
changed it; otherwise environment, then configuration file, then explicit
defaults, and finally the bound flag's declared default. -/
def viperFind (v : ViperState) (key : String) : Option String :=
  match v.pflags key with
  | some f =>
    if f.changed then some f.value
    else
      match v.envVars (envVarName key) with
      | some s => some s
      | none =>
        match v.configMap key with
        | some s => some s
        | none =>
          match v.defaults key with
          | some s => some s
          | none => some f.defValue
  | none =>
    match v.envVars (envVarName key) with
    | some s => some s
    | none =>
      match v.configMap key with
      | some s => some s
      | none => v.defaults key

/-- The flags declared in `init` (root.go 90-104), with their declared
defaults. -/
def declaredFlags : List (String × String) :=
  [("config", "/etc/lite-idp/lite-idp.yaml"),
   ("tls-certificate", "/etc/lite-idp/cert.pem"),
   ("tls-private-key", "/etc/lite-idp/key.pem"),
   ("tls-ca", ""),
   ("listen-address", "127.0.0.1:9443"),
   ("server-name", "idp.example.com:9443"),
   ("entity-id", ""),
   ("metadata-path", "/metadata"),
   ("sso-service-path", "/SAML2/Redirect/SSO"),
   ("artifact-service-path", "/SAML2/SOAP/ArtifactResolution"),
   ("attribute-service-path", "/SAML2/SOAP/AttributeQuery")]

/-- Declared default of the `--config` persistent flag (root.go 92). -/
def configFlagDefault : String := "/etc/lite-idp/lite-idp.yaml"

/-- Flag table in which every declared flag is left at its declared default
(the caller supplied none of them). -/
def standardFlags (key : String) : Option FlagBinding :=
  (declaredFlags.lookup key).map (fun d => { value := d, defValue := d, changed := false })

/-- Resolver state for a run in which no flag was supplied explicitly, with a
given environment and configuration-file contents. -/
def standardState (env cfg : String → Option String) : ViperState :=
  { pflags := standardFlags, envVars := env, configMap := cfg, defaults := fun _ => none }

/-- Which configuration file `initConfig` instructs the resolver to read
(root.go 108-114): the raw flag variable `cfgFile` when non-empty (always, in
practice, since its declared default is non-empty), otherwise a search of
`/etc/lite-idp` for a file named `lite-idp`.  The choice depends only on the
flag variable; environment variables and file contents play no part. -/
inductive ConfigFileChoice where
  | explicitFile (path : String)
  | searchDir (dir base : String)
deriving DecidableEq, Repr

/-- Configuration-file selection performed at root.go 108-114. -/
def chooseConfigFile (cfgFile : String) : ConfigFileChoice :=
  if cfgFile ≠ "" then ConfigFileChoice.explicitFile cfgFile
  else ConfigFileChoice.searchDir "/etc/lite-idp" "lite-idp"

/-- Kinds of configuration-file failure surfaced by `viper.ReadInConfig`. -/
inductive ConfigFileIssue where
  | missing
  | unreadable
  | unparsable
deriving DecidableEq, Repr

/-- Outcome of `viper.ReadInConfig` (root.go 121): either the parsed file
contents, or an error value describing the failure. -/
inductive ReadConfigResult where
  | ok (contents : String → Option String)
  | err (issue : ConfigFileIssue) (msg : String)

/-- Result of `initConfig`: the resolver state used for the rest of the
process, plus the line printed to standard output.  The function has no error
component because `initConfig` in root.go returns nothing and has no abort
path: every branch falls through to normal completion. -/
structure InitConfigResult where
  state : ViperState
  diagnostic : String

/-- Embedding of `initConfig` (root.go 107-126).  `cfgFile` is the raw value
of the `--config` flag variable, `flags` the bound flag table, `env` the
process environment, and `readRes` the outcome of reading the chosen file.
On a read failure the configuration layer stays empty and a diagnostic is
printed; resolution continues with the remaining sources. -/
def initConfig (cfgFile : String) (flags : String → Option FlagBinding)
    (env : String → Option String) (readRes : ReadConfigResult) : InitConfigResult :=
  match readRes with
  | ReadConfigResult.ok contents =>
    { state := { pflags := flags, envVars := env, configMap := contents, defaults := fun _ => none }
      diagnostic := "using config file: " ++ cfgFile }
  | ReadConfigResult.err _ msg =>
    { state := { pflags := flags, envVars := env, configMap := fun _ => none, defaults := fun _ => none }
      diagnostic := "failed to load config file: " ++ msg }

/-- Resolver state whose four layers define a single key `key`:
`flagVal = some v` means the caller explicitly supplied the flag with value
`v` (so the binding is marked changed), `flagVal = none` leaves the flag at
the declared default `defVal`; `envVal` and `fileVal` populate the
environment (under the derived variable name) and the configuration file. -/
def layeredState (key : String) (flagVal envVal fileVal : Option String)
    (defVal : String) : ViperState :=
  { pflags := fun k =>
      if k = key then
        some { value := flagVal.getD defVal, defValue := defVal, changed := flagVal.isSome }
      else none
    envVars := fun k => if k = envVarName key then envVal else none
    configMap := fun k => if k = key then fileVal else none
    defaults := fun _ => none }

/-! ## HTTP handlers and middleware (root.go 48-52, 68-79) -/

/-- An HTTP request, as far as this subsystem inspects it. -/
structure Request where
  method : String
  path : String
deriving DecidableEq, Repr

/-- Response under construction behind an `http.ResponseWriter`.  The header
is a multimap, modelled as an ordered list of (name, value) pairs;
`http.Header.Add` appends a value for a name. -/
structure ResponseState where
  headers : List (String × String)
  status : Nat
deriving DecidableEq, Repr

/-- Embedding of `http.Header.Add`: appends the pair, never removing or
overwriting existing entries. -/
def headerAdd (hs : List (String × String)) (name value : String) :
    List (String × String) :=
  hs ++ [(name, value)]

/-- Number of values the header list carries for a given name. -/
def countHeader (hs : List (String × String)) (name : String) : Nat :=
  (hs.filter (fun p => p.1 == name)).length

/-- A handler transforms the response state for a request (the effect of
`ServeHTTP` on the `ResponseWriter`). -/
def Handler : Type := Request → ResponseState → ResponseState

/-- Embedding of `hstsHandler.ServeHTTP` (root.go 72-75): add the
strict-transport-security header, then delegate to the wrapped handler with
the request unchanged. -/
def hstsServeHTTP (inner : Handler) : Handler :=
  fun r w =>
    inner r { w with headers := headerAdd w.headers "Strict-Transport-Security"
                                  "max-age=63072000; includeSubDomains" }

/-- Embedding of `hsts` (root.go 77-79): wraps a handler in an
`hstsHandler`. -/
def hsts (h : Handler) : Handler := hstsServeHTTP h

/-- A handler preserves headers when it never deletes or overwrites entries
already present in the response header (it may append its own). -/
def preservesHeaders (h : Handler) : Prop :=
  ∀ r w p, p ∈ w.headers → p ∈ (h r w).headers

/-- Server-side state threaded through the outermost handler: the response
under construction plus the access log written to standard output. -/
structure ServeState where
  resp : ResponseState
  accessLog : List (String × String)
deriving DecidableEq, Repr

/-- Embedding of `handlers.CombinedLoggingHandler(os.Stdout, ·)`
(gorilla/handlers): serves the request with the wrapped handler and appends
one access-log entry for it, whatever the wrapped handler did. -/
def combinedLoggingHandler (inner : Handler) : Request → ServeState → ServeState :=
  fun r s =>
    { resp := inner r s.resp, accessLog := s.accessLog ++ [(r.method, r.path)] }

/-- The handler installed on the server (root.go 50):
`handlers.CombinedLoggingHandler(os.Stdout, hsts(handler))` — logging
outermost, security-header middleware inside it, application handler at the
core. -/
def serverHandler (app : Handler) : Request → ServeState → ServeState :=
  combinedLoggingHandler (hsts app)

/-! ## Serve result, run function and process exit (root.go 39-66, 83-88) -/

/-- Result of the blocking `server.ListenAndServeTLS` call, which always
returns a non-nil error: `http.ErrServerClosed` after `server.Shutdown` was
invoked, and the listen or serve failure otherwise. -/
inductive ServeError where
  | errServerClosed
  | other (msg : String)
deriving DecidableEq, Repr

/-- Embedding of `RootCmd.RunE` (root.go 39-66) as a function of its two
effectful outcomes: handler construction (`idp.Handler()`) and the blocking
serve call.  `some e` is an error return, `none` the nil return taken when
the serve call ended with `http.ErrServerClosed` (root.go 61-65). -/
def runE (handlerResult : Except String Unit) (serveErr : ServeError) :
    Option String :=
  match handlerResult with
  | Except.error e => some e
  | Except.ok _ =>
    match serveErr with
    | ServeError.errServerClosed => none
    | ServeError.other e => some e

/-- Observable process termination: exit status and the error line printed,
if any. -/
structure ProcessExit where
  exitCode : Nat
  printedError : Option String
deriving DecidableEq, Repr

/-- Embedding of `Execute` (root.go 83-88): a non-nil error from the command
is printed and the process exits with status 1; otherwise the process
finishes normally with status 0. -/
def executeRun (runResult : Option String) : ProcessExit :=
  match runResult with
  | some e => { exitCode := 1, printedError := some e }
  | none => { exitCode := 0, printedError := none }

/-! ## Signal registration and shutdown waiter (root.go 40-42, 53-57) -/

/-- The operations `RootCmd.RunE` performs up to and including the blocking
serve call, in source order (root.go 40-61). -/
inductive RunStep where
  | makeSignalChan (capacity : Nat)
  | notifyInterrupt
  | buildHandler
  | buildServer
  | startShutdownWaiter
  | listenAndServe
deriving DecidableEq, Repr

/-- Source-order step sequence of `RootCmd.RunE`: the signal channel is
created with capacity 1 (root.go 41) and registered for interrupts
(root.go 42) before the server is built and `ListenAndServeTLS` blocks
(root.go 61). -/
def runESteps : List RunStep :=
  [RunStep.makeSignalChan 1, RunStep.notifyInterrupt, RunStep.buildHandler,
   RunStep.buildServer, RunStep.startShutdownWaiter, RunStep.listenAndServe]

/-- Capacity of the signal channel created at root.go 41. -/
def signalChanCapacity : Nat := 1

/-- Body of the shutdown goroutine (root.go 53-57). -/
inductive WaiterStep where
  | recvSignal
  | callShutdown
deriving DecidableEq, Repr

/-- The goroutine performs exactly one channel receive followed by exactly
one `server.Shutdown` call. -/
def shutdownWaiterSteps : List WaiterStep :=
  [WaiterStep.recvSignal, WaiterStep.callShutdown]

/-- Delivery of an interrupt into the buffered notification channel: the Go
runtime's send on behalf of `signal.Notify` is non-blocking, so the signal
is stored when the buffer has free capacity and dropped otherwise. -/
def deliverSignal (cap pending : Nat) : Nat :=
  if pending < cap then pending + 1 else pending

/-- Receive from the notification channel: consumes one pending signal when
one is buffered. -/
def chanRecv (pending : Nat) : Option Nat :=
  match pending with
  | 0 => none
  | n + 1 => some n

/-! ## Theorems -/

/-- C1: per-key source precedence.  For a key defined in all four sources the
explicitly supplied flag value wins; without the flag source the environment
value wins; without that, the configuration-file value; without that, the
declared default. -/
theorem precedence_resolution (key vF vE vC vD : String) :
    viperFind (layeredState key (some vF) (some vE) (some vC) vD) key = some vF ∧
    viperFind (layeredState key none (some vE) (some vC) vD) key = some vE ∧
    viperFind (layeredState key none none (some vC) vD) key = some vC ∧
    viperFind (layeredState key none none none vD) key = some vD := by
  refine ⟨?_, ?_, ?_, ?_⟩ <;> simp [viperFind, layeredState]

/-- C2: a flag left at its declared default does not shadow the environment
or the configuration file: with the binding unchanged, an environment value
wins, else a file value wins; the flag's own value wins exactly when the
caller explicitly supplied the flag. -/
theorem unset_flag_yields_to_env_and_file (v : ViperState) (key : String)
    (f : FlagBinding) (hf : v.pflags key = some f) :
    (f.changed = false → ∀ s, v.envVars (envVarName key) = some s →
      viperFind v key = some s) ∧
    (f.changed = false → v.envVars (envVarName key) = none →
      ∀ s, v.configMap key = some s → viperFind v key = some s) ∧
    (f.changed = true → viperFind v key = some f.value) := by
  refine ⟨?_, ?_, ?_⟩
  · intro hch s he
    simp [viperFind, hf, hch, he]
  · intro hch he s hc
    simp [viperFind, hf, hch, he, hc]
  · intro hch
    simp [viperFind, hf, hch]

/-- Concrete resolver state for the witness: `listen-address` flag bound but
not supplied by the caller, while the environment defines
`LISTEN_ADDRESS`. -/
def c2State : ViperState :=
  { pflags := fun k =>
      if k = "listen-address" then
        some { value := "127.0.0.1:9443", defValue := "127.0.0.1:9443", changed := false }
      else none
    envVars := fun k => if k = "LISTEN_ADDRESS" then some "0.0.0.0:443" else none
    configMap := fun _ => none
    defaults := fun _ => none }

/-- Witness for C2 at a concrete state: the environment value overrides the
unset flag default. -/
theorem unset_flag_yields_witness :
    viperFind c2State "listen-address" = some "0.0.0.0:443" :=
  (unset_flag_yields_to_env_and_file c2State "listen-address"
      { value := "127.0.0.1:9443", defValue := "127.0.0.1:9443", changed := false }
      rfl).1 rfl "0.0.0.0:443" rfl

/-- C3: when the blocking serve call ends with the server-closed sentinel the
run function returns no error and the process exits 0; every other cause of
return — a serve failure or a handler-construction failure — is propagated,
printed, and yields exit status 1. -/
theorem shutdown_exit_discipline (e : String) (se : ServeError) :
    executeRun (runE (Except.ok ()) ServeError.errServerClosed) =
      { exitCode := 0, printedError := none } ∧
    executeRun (runE (Except.ok ()) (ServeError.other e)) =
      { exitCode := 1, printedError := some e } ∧
    executeRun (runE (Except.error e) se) =
      { exitCode := 1, printedError := some e } := by
  refine ⟨rfl, rfl, ?_⟩
  cases se <;> rfl

/-- C4: the middleware unconditionally adds the strict-transport-security
header and then delegates to the wrapped handler with the request unchanged;
whenever the wrapped handler preserves response headers, the final response
carries the header, whatever the request and status were. -/
theorem hsts_adds_header_and_delegates (inner : Handler)
    (hp : preservesHeaders inner) (r : Request) (w : ResponseState) :
    ("Strict-Transport-Security", "max-age=63072000; includeSubDomains") ∈
      (hsts inner r w).headers ∧
    hsts inner r w =
      inner r { w with headers :=
        w.headers ++ [("Strict-Transport-Security", "max-age=63072000; includeSubDomains")] } := by
  constructor
  · exact hp r _ _ (by simp [headerAdd])
  · rfl

/-- Witness for C4 at a concrete request with a header-preserving inner
handler. -/
theorem hsts_adds_header_witness :
    ("Strict-Transport-Security", "max-age=63072000; includeSubDomains") ∈
      (hsts (fun _ w => w) { method := "GET", path := "/metadata" }
        { headers := [], status := 200 }).headers :=
  (hsts_adds_header_and_delegates (fun _ w => w) (fun _ _ _ h => h)
    { method := "GET", path := "/metadata" } { headers := [], status := 200 }).1

/-- C5: configuration-file failure of any kind is non-fatal: `initConfig`
prints a diagnostic, leaves the file layer empty, and resolution of every key
proceeds exactly as with the remaining sources (flags, environment,
defaults).  The function has no abort or error path by construction. -/
theorem config_file_failure_nonfatal (cfgFile : String)
    (flags : String → Option FlagBinding) (env : String → Option String)
    (issue : ConfigFileIssue) (msg : String) :
    (initConfig cfgFile flags env (ReadConfigResult.err issue msg)).diagnostic =
      "failed to load config file: " ++ msg ∧
    ∀ key,
      (initConfig cfgFile flags env (ReadConfigResult.err issue msg)).state.configMap key
        = none ∧
      viperFind (initConfig cfgFile flags env (ReadConfigResult.err issue msg)).state key =
        viperFind { pflags := flags, envVars := env, configMap := fun _ => none,
                    defaults := fun _ => none } key :=
  ⟨rfl, fun _ => ⟨rfl, rfl⟩⟩

/-- C6: the environment variable consulted for a setting is its name
upper-cased with every dash replaced by an underscore — on every declared
setting name, and in particular `TLS_CERTIFICATE` for `tls-certificate`,
which the resolver indeed consults for that key. -/
theorem env_var_name_derivation (v : ViperState) (s : String)
    (hp : v.pflags "tls-certificate" = none)
    (he : v.envVars "TLS_CERTIFICATE" = some s) :
    envVarName "tls-certificate" = "TLS_CERTIFICATE" ∧
    declaredFlags.map (fun p => envVarName p.1) =
      ["CONFIG", "TLS_CERTIFICATE", "TLS_PRIVATE_KEY", "TLS_CA", "LISTEN_ADDRESS",
       "SERVER_NAME", "ENTITY_ID", "METADATA_PATH", "SSO_SERVICE_PATH",
       "ARTIFACT_SERVICE_PATH", "ATTRIBUTE_SERVICE_PATH"] ∧
    viperFind v "tls-certificate" = some s := by
  have h : envVarName "tls-certificate" = "TLS_CERTIFICATE" := by decide
  refine ⟨h, by decide, ?_⟩
  simp [viperFind, hp, h, he]

/-- Concrete environment for the C6 witness. -/
def c6Env : String → Option String :=
  fun k => if k = "TLS_CERTIFICATE" then some "/tmp/cert.pem" else none

/-- Witness for C6: with `TLS_CERTIFICATE` set in the environment, the
resolver returns its value for `tls-certificate`. -/
theorem env_var_name_witness :
    viperFind { pflags := fun _ => none, envVars := c6Env,
                configMap := fun _ => none, defaults := fun _ => none }
      "tls-certificate" = some "/tmp/cert.pem" :=
  (env_var_name_derivation
      { pflags := fun _ => none, envVars := c6Env,
        configMap := fun _ => none, defaults := fun _ => none }
      "/tmp/cert.pem" rfl rfl).2.2

/-- C7: the served handler is the logging wrapper applied to the
security-header wrapper applied to the application handler; hence every
request is appended to the access log, and the application handler — even
one that rejects the request — runs on a response whose headers already
carry the strict-transport-security entry. -/
theorem middleware_composition_order (app : Handler) (r : Request) (s : ServeState) :
    serverHandler app = combinedLoggingHandler (hsts app) ∧
    (serverHandler app r s).accessLog = s.accessLog ++ [(r.method, r.path)] ∧
    (serverHandler app r s).resp =
      app r { s.resp with headers :=
        s.resp.headers ++ [("Strict-Transport-Security", "max-age=63072000; includeSubDomains")] } :=
  ⟨rfl, rfl, rfl⟩

/-- C8 counterexample: with every flag left at its declared default and the
environment setting `CONFIG` to `/tmp/other.yaml`, the §4.1-resolved value of
the `config` key is the environment value, yet the file `initConfig`
consults is still the flag default — the configuration-file path does not
participate in the environment/file override mechanism. -/
def c8Env : String → Option String :=
  fun k => if k = "CONFIG" then some "/tmp/other.yaml" else none

/-- C8 is false on the code: the resolved `config` setting and the file
actually chosen disagree at this concrete input. -/
theorem config_flag_not_overridable :
    viperFind (standardState c8Env (fun _ => none)) "config" = some "/tmp/other.yaml" ∧
    chooseConfigFile configFlagDefault =
      ConfigFileChoice.explicitFile "/etc/lite-idp/lite-idp.yaml" ∧
    ¬ chooseConfigFile configFlagDefault =
        ConfigFileChoice.explicitFile "/tmp/other.yaml" := by
  refine ⟨?_, ?_, ?_⟩ <;> decide

/-- C8 amended: every declared flag other than `--config` participates in the
§4.1 override mechanism (an environment value beats its unset default), while
the configuration file consulted is always taken from the `--config` flag
variable itself, irrespective of the environment. -/
theorem flags_overridable_except_config_path (env cfg : String → Option String)
    (key d v : String) (hd : declaredFlags.lookup key = some d)
    (_hk : key ≠ "config") (he : env (envVarName key) = some v) :
    viperFind (standardState env cfg) key = some v ∧
    chooseConfigFile configFlagDefault =
      ConfigFileChoice.explicitFile configFlagDefault := by
  constructor
  · simp [viperFind, standardState, standardFlags, hd, he]
  · rfl

/-- Concrete environment for the C8 amended witness. -/
def c8wEnv : String → Option String :=
  fun k => if k = "LISTEN_ADDRESS" then some "0.0.0.0:8443" else none

/-- Witness for the amended C8 at the `listen-address` flag. -/
theorem flags_overridable_witness :
    viperFind (standardState c8wEnv (fun _ => none)) "listen-address" =
      some "0.0.0.0:8443" :=
  (flags_overridable_except_config_path c8wEnv (fun _ => none) "listen-address"
      "127.0.0.1:9443" "0.0.0.0:8443" (by decide) (by decide) (by decide)).1

/-- C9: the interrupt notification is registered strictly before the blocking
serve call in the source order of `RunE`; the channel is created with
capacity 1 ≥ 1, so a signal delivered into the empty buffer before the waiter
is scheduled is stored and later received; and the waiter performs exactly
one shutdown request, after its single receive. -/
theorem signal_registration_before_serve :
    List.indexOf RunStep.notifyInterrupt runESteps <
      List.indexOf RunStep.listenAndServe runESteps ∧
    RunStep.makeSignalChan signalChanCapacity ∈ runESteps ∧
    1 ≤ signalChanCapacity ∧
    deliverSignal signalChanCapacity 0 = 1 ∧
    chanRecv (deliverSignal signalChanCapacity 0) = some 0 ∧
    List.count WaiterStep.callShutdown shutdownWaiterSteps = 1 ∧
    List.indexOf WaiterStep.recvSignal shutdownWaiterSteps <
      List.indexOf WaiterStep.callShutdown shutdownWaiterSteps := by
  decide

/-- C10: the middleware appends its strict-transport-security value rather
than replacing existing ones: when the downstream handler also adds such a
header, the response header list is the original list extended with both
values — two entries for the name beyond whatever was already present — and
every previously present pair survives. -/
theorem hsts_appends_never_replaces (inner : Handler) (v : String)
    (hinner : ∀ r w, inner r w =
      { w with headers := headerAdd w.headers "Strict-Transport-Security" v })
    (r : Request) (w : ResponseState) :
    (hsts inner r w).headers =
      w.headers ++ [("Strict-Transport-Security", "max-age=63072000; includeSubDomains"),
                    ("Strict-Transport-Security", v)] ∧
    countHeader (hsts inner r w).headers "Strict-Transport-Security" =
      countHeader w.headers "Strict-Transport-Security" + 2 ∧
    ∀ p ∈ w.headers, p ∈ (hsts inner r w).headers := by
  have h1 : (hsts inner r w).headers =
      w.headers ++ [("Strict-Transport-Security", "max-age=63072000; includeSubDomains"),
                    ("Strict-Transport-Security", v)] := by
    simp only [hsts, hstsServeHTTP]
    rw [hinner]
    simp [headerAdd]
  refine ⟨h1, ?_, ?_⟩
  · rw [h1]
    simp [countHeader, List.filter_append]
  · intro p hp
    rw [h1]
    exact List.mem_append_left _ hp

/-- Downstream handler for the C10 witness: adds its own
strict-transport-security header. -/
def c10Inner : Handler :=
  fun _ w => { w with headers := headerAdd w.headers "Strict-Transport-Security" "max-age=0" }

/-- Witness for C10 at a concrete request: the response carries two values
for the header name on top of the pre-existing unrelated entry. -/
theorem hsts_appends_witness :
    countHeader (hsts c10Inner { method := "GET", path := "/" }
        { headers := [("X-Test", "1")], status := 200 }).headers
      "Strict-Transport-Security" =
    countHeader ([("X-Test", "1")] : List (String × String))
      "Strict-Transport-Security" + 2 :=
  (hsts_appends_never_replaces c10Inner "max-age=0" (fun _ _ => rfl)
      { method := "GET", path := "/" }
      { headers := [("X-Test", "1")], status := 200 }).2.1
